import Mathlib

/-!
Verification of the core data model and operations of the `workflow_rust`
durable workflow orchestration engine.

The definitions below are a shallow embedding of the Rust source:

* `src/workflow/src/temporal/types.rs` — identifier types (`WorkflowId`,
  `RunId`, `ActivityId`, `EventId`, `WorkflowExecution`);
* `src/workflow/src/temporal/event.rs` — `WorkflowEvent`, `EventType`,
  `EventHistory`;
* `src/workflow/src/temporal/error.rs` — `WorkflowError`, `ActivityError`,
  `StorageError`;
* `src/workflow/src/temporal/activity.rs` — `RetryPolicy` and its `Default`;
* `src/workflow/src/temporal/storage.rs` — `InMemoryStorage`;
* `src/workflow/src/persistence.rs` — `StateSnapshot`, `InMemoryAdapter`.

Rust `HashMap`s are modelled as association lists with insert-replaces
semantics; ambient wall-clock reads (`chrono::Utc::now()`) become explicit
parameters; `async fn ... -> anyhow::Result<T>` becomes a pure function
returning `Except String T` (paired with the updated state for `&self`
methods that mutate through interior mutability).  `u64`/`u32` counters are
modelled as `Nat`: the only arithmetic on them is `+ 1` on values bounded by
a `Vec` length, which cannot overflow 64 bits.

A few operations the spec describes have no implementation in the source
(`WorkflowContext::execute_activity` is a `todo!()` placeholder, and no
retry-delay engine or per-execution status machine exists in the core);
those are modelled from the spec's words and are marked as such in their
doc comments.
-/

namespace WorkflowRust

/-! ## JSON values (`serde_json::Value`) -/

/-- Model of `serde_json::Value`: inputs and results carried by events.
The engine never inspects these values; they are opaque payloads. -/
inductive Json where
  | null : Json
  | bool (b : Bool) : Json
  | num (n : Int) : Json
  | str (s : String) : Json
  | arr (elems : List Json) : Json
  | obj (fields : List (String × Json)) : Json

/-! ## Identifier types (`temporal/types.rs`) -/

/-- Rust `pub struct WorkflowId(pub String)`. -/
structure WorkflowId where
  id : String
deriving DecidableEq

/-- Rust `pub struct RunId(pub Uuid)`; the UUID is modelled as an opaque string. -/
structure RunId where
  id : String
deriving DecidableEq

/-- Rust `pub struct ActivityId(pub String)`. -/
structure ActivityId where
  id : String
deriving DecidableEq

/-- Rust `pub struct EventId(pub u64)` — sequence number in event history. -/
structure EventId where
  val : Nat
deriving DecidableEq

/-- Rust `EventId::zero()`. -/
def EventId.zero : EventId := ⟨0⟩

/-- Rust `EventId::next(&self)`. -/
def EventId.next (e : EventId) : EventId := ⟨e.val + 1⟩

/-- Rust `pub struct WorkflowExecution { workflow_id, run_id }`. -/
structure WorkflowExecution where
  workflow_id : WorkflowId
  run_id : RunId
deriving DecidableEq

/-! ## Events (`temporal/event.rs`) -/

/-- Rust `pub enum EventType` — the nine event variants of `event.rs`. -/
inductive EventType where
  | WorkflowExecutionStarted (workflow_type : String) (input : Json)
  | WorkflowExecutionCompleted (result : Json)
  | WorkflowExecutionFailed (failure : String)
  | ActivityTaskScheduled (activity_id : ActivityId) (activity_type : String) (input : Json)
  | ActivityTaskStarted (activity_id : ActivityId)
  | ActivityTaskCompleted (activity_id : ActivityId) (result : Json)
  | ActivityTaskFailed (activity_id : ActivityId) (failure : String)
  | TimerStarted (timer_id : String) (duration_ms : Nat)
  | TimerFired (timer_id : String)

/-- Rust `pub struct WorkflowEvent { event_id, timestamp, event_type }`;
the `DateTime<Utc>` timestamp is modelled as an integer. -/
structure WorkflowEvent where
  event_id : EventId
  timestamp : Int
  event_type : EventType

/-- Rust `pub struct EventHistory { events: Vec<WorkflowEvent> }`. -/
structure EventHistory where
  events : List WorkflowEvent

/-- Rust `EventHistory::new()`. -/
def EventHistory.new : EventHistory := ⟨[]⟩

/-- Rust `EventHistory::add_event(&mut self, event)` — pushes the event onto the
end of the vector; note that it takes the event as given (it does not touch
`event.event_id`) and returns `()`. -/
def EventHistory.add_event (h : EventHistory) (event : WorkflowEvent) : EventHistory :=
  ⟨h.events ++ [event]⟩

/-- Rust `EventHistory::len(&self)`. -/
def EventHistory.len (h : EventHistory) : Nat := h.events.length

/-- Rust `EventHistory::is_empty(&self)`. -/
def EventHistory.is_empty (h : EventHistory) : Bool := h.events.isEmpty

/-- The sequence of raw EventId values stored in a history, in storage order. -/
def EventHistory.eventIds (h : EventHistory) : List Nat :=
  h.events.map (fun e => e.event_id.val)

/-- A history built by calling `add_event` once per element of `es`, in order,
starting from `EventHistory::new()`. -/
def EventHistory.build (es : List WorkflowEvent) : EventHistory :=
  es.foldl EventHistory.add_event EventHistory.new

/-- Appending an event whose `event_id` is assigned by the intended scheme of
the spec: the next EventId equals `history.len()` at call time (the
`EventId::zero` / `EventId::next` counter of `types.rs`). -/
def EventHistory.add_assigned (h : EventHistory) (ts : Int) (ty : EventType) : EventHistory :=
  h.add_event ⟨⟨h.len⟩, ts, ty⟩

/-- A history built from `new` by `add_assigned`, one call per payload. -/
def EventHistory.build_assigned (l : List (Int × EventType)) : EventHistory :=
  l.foldl (fun h p => h.add_assigned p.1 p.2) EventHistory.new

/-! ## Error types (`temporal/error.rs`) -/

/-- Rust `pub enum WorkflowError`. -/
inductive WorkflowError where
  | ActivityFailed (msg : String)
  | ChildWorkflowFailed (msg : String)
  | Timeout (msg : String)
  | Cancelled
  | SignalChannelClosed
  | InvalidInput (msg : String)
  | StorageError (msg : String)
  | SerializationError (msg : String)
  | Custom (msg : String)
deriving DecidableEq

/-- Rust `pub enum ActivityError`. -/
inductive ActivityError where
  | TemporaryFailure (msg : String)
  | ValidationFailed (msg : String)
  | ExecutionFailed (msg : String)
  | Cancelled
  | Timeout
  | HeartbeatFailed (msg : String)
  | InvalidInput (msg : String)
  | Custom (msg : String)
deriving DecidableEq

/-- Rust `pub enum StorageError`. -/
inductive StorageError where
  | ConnectionError (msg : String)
  | QueryError (msg : String)
  | SerializationError (msg : String)
  | NotFound
  | Custom (msg : String)
deriving DecidableEq

/-! ## Retry policy (`temporal/activity.rs`) -/

/-- Rust `pub struct RetryPolicy` of `activity.rs`.  `Duration` intervals are
modelled in seconds and, together with the `f64` backoff coefficient, as
rationals (every value the source manipulates — 1 s, 100 s, 2.0 — is exactly
representable). -/
structure RetryPolicy where
  max_attempts : Nat
  initial_interval : ℚ
  max_interval : ℚ
  backoff_coefficient : ℚ
  non_retryable_error_types : List String
deriving DecidableEq

/-- Rust `impl Default for RetryPolicy`: 3 attempts, 1 s initial, 100 s max,
coefficient 2.0, no non-retryable kinds. -/
def RetryPolicy.defaultPolicy : RetryPolicy :=
  { max_attempts := 3
    initial_interval := 1
    max_interval := 100
    backoff_coefficient := 2
    non_retryable_error_types := [] }

/-- The variant name of an `ActivityError`, as matched against the
`non_retryable_error_types` list of strings. -/
def ActivityError.kind : ActivityError → String
  | .TemporaryFailure _ => "TemporaryFailure"
  | .ValidationFailed _ => "ValidationFailed"
  | .ExecutionFailed _ => "ExecutionFailed"
  | .Cancelled => "Cancelled"
  | .Timeout => "Timeout"
  | .HeartbeatFailed _ => "HeartbeatFailed"
  | .InvalidInput _ => "InvalidInput"
  | .Custom _ => "Custom"

/-- Modelled from the spec: no retry engine exists in the source
(`activity.rs` only declares the `RetryPolicy` data).  Per §4.3, an error is
retryable unless it is `ValidationFailed`, `Cancelled`, or its kind is listed
in `non_retryable_error_types`. -/
def RetryPolicy.is_retryable (p : RetryPolicy) (e : ActivityError) : Bool :=
  match e with
  | .ValidationFailed _ => false
  | .Cancelled => false
  | _ => !(p.non_retryable_error_types.contains e.kind)

/-- Modelled from the spec: no retry engine exists in the source.  Per §4.3,
the delay before retry attempt `attempt + 1`, after attempt number `attempt`
failed, is `min (initial_interval * backoff_coefficient ^ (attempt - 1))
max_interval` (attempts are numbered from 1). -/
def RetryPolicy.retry_delay (p : RetryPolicy) (attempt : Nat) : ℚ :=
  min (p.initial_interval * p.backoff_coefficient ^ (attempt - 1)) p.max_interval

/-- Modelled from the spec: no retry engine exists in the source.  Per §4.3,
after attempt number `attempt` fails with error `e`, a new attempt is
scheduled iff `attempt < max_attempts` and `e` is retryable. -/
def RetryPolicy.should_retry (p : RetryPolicy) (attempt : Nat) (e : ActivityError) : Bool :=
  decide (attempt < p.max_attempts) && p.is_retryable e

/-! ## Execution status machine -/

/-- The per-execution status enum of the spec's data model
(`{Running, Completed, Failed, Timeout, Cancelled}`). -/
inductive ExecutionStatus where
  | Running
  | Completed
  | Failed
  | Timeout
  | Cancelled
deriving DecidableEq

/-- A status is terminal iff it is not `Running`. -/
def ExecutionStatus.is_terminal : ExecutionStatus → Bool
  | .Running => false
  | _ => true

/-- Modelled from the spec: the worker dispatch loop's per-execution status
update on event append (§4.4) has no implementation in the source
(`worker.rs` is an empty stub).  Per §4.2/§4.4, a terminal-event append moves
a `Running` execution to the corresponding terminal status, any other append
leaves it `Running`, and no append changes a terminal status. -/
def ExecutionStatus.apply_event (s : ExecutionStatus) (e : EventType) : ExecutionStatus :=
  if s.is_terminal then s
  else
    match e with
    | .WorkflowExecutionCompleted _ => .Completed
    | .WorkflowExecutionFailed _ => .Failed
    | _ => .Running

/-! ## Persistence adapter (`persistence.rs`) -/

/-- Rust `pub struct StateSnapshot { workflow_id, state, updated_at }`. -/
structure StateSnapshot where
  workflow_id : String
  state : Json
  updated_at : Int

/-- Insert-or-replace into an association list, modelling
`HashMap::insert` observably: the new binding is placed in front and shadows
any previous binding for the same key (lookup and membership are first-match,
so a shadowed binding is never observable). -/
def mapInsert {α : Type} (m : List (String × α)) (k : String) (v : α) : List (String × α) :=
  (k, v) :: m

/-- First-match lookup in an association list, modelling `HashMap::get`. -/
def mapLookup {α : Type} (m : List (String × α)) (k : String) : Option α :=
  (m.find? (fun p => p.1 = k)).map (fun p => p.2)

/-- Key-membership test, modelling `HashMap::contains_key`. -/
def mapContains {α : Type} (m : List (String × α)) (k : String) : Bool :=
  m.any (fun p => p.1 = k)

/-- Rust `pub struct InMemoryAdapter { states, keys }` — the two `RwLock`-guarded
hash maps, as association lists. -/
structure InMemoryAdapter where
  states : List (String × StateSnapshot)
  keys : List (String × Int)

/-- Rust `InMemoryAdapter::new()`. -/
def InMemoryAdapter.new : InMemoryAdapter := ⟨[], []⟩

/-- Rust `save_state(&self, snapshot)`: inserts the snapshot under its
`workflow_id` and returns `Ok(())`.  The `anyhow::Result` is `Except String`;
the mutated adapter is returned alongside. -/
def InMemoryAdapter.save_state (a : InMemoryAdapter) (snapshot : StateSnapshot) :
    Except String Unit × InMemoryAdapter :=
  (.ok (), { a with states := mapInsert a.states snapshot.workflow_id snapshot })

/-- Rust `load_state(&self, workflow_id)`: returns `Ok` of the stored snapshot
for this id, cloned, or `None`. -/
def InMemoryAdapter.load_state (a : InMemoryAdapter) (workflow_id : String) :
    Except String (Option StateSnapshot) :=
  .ok (mapLookup a.states workflow_id)

/-- Rust `put_idempotency_key(&self, key, _ttl_seconds)`: reads the wall clock
(modelled by the explicit `now` argument), then returns `Ok(false)` if the
key is already present, else stores `(key, now)` and returns `Ok(true)`.
The `_ttl_seconds` argument is ignored by the source. -/
def InMemoryAdapter.put_idempotency_key (a : InMemoryAdapter) (key : String)
    (_ttl_seconds : Nat) (now : Int) : Except String Bool × InMemoryAdapter :=
  if mapContains a.keys key then (.ok false, a)
  else (.ok true, { a with keys := mapInsert a.keys key now })

/-- An adapter built from `new` by one `save_state` call per snapshot. -/
def InMemoryAdapter.build_saves (snaps : List StateSnapshot) : InMemoryAdapter :=
  snaps.foldl (fun a s => (a.save_state s).2) InMemoryAdapter.new

/-! ## Workflow storage (`temporal/storage.rs`) -/

/-- Rust `pub struct InMemoryStorage;` — a unit struct with no state at all. -/
structure InMemoryStorage where
deriving DecidableEq

/-- Rust `InMemoryStorage::save_workflow_execution(&self, execution, history)`:
placeholder that ignores both arguments and returns `Ok(())`; the storage
value is returned unchanged (it has no state to change). -/
def InMemoryStorage.save_workflow_execution (s : InMemoryStorage)
    (_execution : WorkflowExecution) (_history : EventHistory) :
    Except StorageError Unit × InMemoryStorage :=
  (.ok (), s)

/-- Rust `InMemoryStorage::load_workflow_execution(&self, workflow_id)`:
placeholder that ignores its argument and returns `Err(StorageError::NotFound)`. -/
def InMemoryStorage.load_workflow_execution (_s : InMemoryStorage)
    (_workflow_id : WorkflowId) :
    Except StorageError (WorkflowExecution × EventHistory) :=
  .error .NotFound

/-! ## Workflow execution context (`temporal/workflow.rs`) -/

/-- Whether an `ActivityTaskScheduled` event for this ActivityId is in history. -/
def EventHistory.has_scheduled (h : EventHistory) (aid : ActivityId) : Bool :=
  h.events.any (fun e =>
    match e.event_type with
    | .ActivityTaskScheduled a _ _ => a = aid
    | _ => false)

/-- The first recorded completion or failure for this ActivityId, if any:
`Except.ok result` from an `ActivityTaskCompleted` event, `Except.error failure`
from an `ActivityTaskFailed` event. -/
def EventHistory.find_activity_result (h : EventHistory) (aid : ActivityId) :
    Option (Except String Json) :=
  h.events.findSome? (fun e =>
    match e.event_type with
    | .ActivityTaskCompleted a r => if a = aid then some (.ok r) else none
    | .ActivityTaskFailed a f => if a = aid then some (.error f) else none
    | _ => none)

/-- Outcome of one `execute_activity` step: either the call suspends, handing
back the (possibly extended) history, or it returns a result immediately. -/
inductive ActivityCall where
  | suspended (h : EventHistory)
  | returned (r : Except WorkflowError Json)

/-- Modelled from the spec: `WorkflowContext::execute_activity` in
`temporal/workflow.rs` is a `todo!()` placeholder, so this definition follows
§4.2 of the spec.  If no `ActivityTaskScheduled` event for this call-site's
ActivityId is in history, append one (with the next EventId, `history.len()`)
and suspend; if one is in history (replay) and a completion or failure for
that ActivityId is recorded, return the recorded result immediately without
suspending (a recorded failure surfaces as `WorkflowError::ActivityFailed`);
if scheduled but not yet completed, remain suspended on the unchanged
history. -/
def execute_activity (h : EventHistory) (aid : ActivityId) (activity_type : String)
    (input : Json) (ts : Int) : ActivityCall :=
  if h.has_scheduled aid then
    match h.find_activity_result aid with
    | some (.ok r) => .returned (.ok r)
    | some (.error f) => .returned (.error (.ActivityFailed f))
    | none => .suspended h
  else
    .suspended (h.add_event ⟨⟨h.len⟩, ts, .ActivityTaskScheduled aid activity_type input⟩)

/-! ## Helper lemmas -/

theorem eventIds_add_event (h : EventHistory) (e : WorkflowEvent) :
    (h.add_event e).eventIds = h.eventIds ++ [e.event_id.val] := by
  simp [EventHistory.add_event, EventHistory.eventIds]

theorem len_add_event (h : EventHistory) (e : WorkflowEvent) :
    (h.add_event e).len = h.len + 1 := by
  simp [EventHistory.add_event, EventHistory.len]

theorem eventIds_foldl_add_assigned (l : List (Int × EventType)) (h : EventHistory) :
    (l.foldl (fun h p => h.add_assigned p.1 p.2) h).eventIds
      = h.eventIds ++ List.range' h.len l.length := by
  induction l generalizing h with
  | nil => simp
  | cons p l ih =>
      rw [List.foldl_cons, ih]
      simp only [EventHistory.add_assigned, eventIds_add_event, len_add_event,
        List.length_cons, List.range'_succ, List.append_assoc, List.singleton_append]

theorem foldl_add_event_events (es : List WorkflowEvent) (h : EventHistory) :
    (es.foldl EventHistory.add_event h).events = h.events ++ es := by
  induction es generalizing h with
  | nil => simp
  | cons e es ih =>
      rw [List.foldl_cons, ih]
      simp [EventHistory.add_event]

theorem mapContains_insert_self {α : Type} (m : List (String × α)) (k : String) (v : α) :
    mapContains (mapInsert m k v) k = true := by
  simp [mapContains, mapInsert]

theorem mapLookup_insert_self {α : Type} (m : List (String × α)) (k : String) (v : α) :
    mapLookup (mapInsert m k v) k = some v := by
  simp [mapLookup, mapInsert]

theorem mapLookup_insert_ne {α : Type} (m : List (String × α)) (k k' : String) (v : α)
    (hne : k ≠ k') :
    mapLookup (mapInsert m k' v) k = mapLookup m k := by
  have hk : ¬ k' = k := fun hcontra => hne hcontra.symm
  simp [mapLookup, mapInsert, List.find?, hk]

theorem load_state_foldl_saves (snaps : List StateSnapshot) :
    ∀ (a : InMemoryAdapter) (wid : String),
      wid ∉ snaps.map StateSnapshot.workflow_id →
      mapLookup a.states wid = none →
      mapLookup ((snaps.foldl (fun a s => (a.save_state s).2) a).states) wid = none := by
  induction snaps with
  | nil =>
      intro a wid _ hbase
      exact hbase
  | cons s snaps ih =>
      intro a wid hnot hbase
      simp only [List.map_cons, List.mem_cons, not_or] at hnot
      rw [List.foldl_cons]
      refine ih _ wid hnot.2 ?_
      show mapLookup (mapInsert a.states s.workflow_id s) wid = none
      rw [mapLookup_insert_ne a.states wid s.workflow_id s hnot.1]
      exact hbase

/-! ## Concrete data for counterexamples and witnesses -/

/-- Concrete event carrying EventId 5, used to refute C2. -/
def eventWithId5 : WorkflowEvent := ⟨⟨5⟩, 0, .TimerFired "t"⟩

/-- Concrete history whose events were added with EventIds 7 then 3, used to
refute C3: `add_event` accepts it without complaint. -/
def historyOutOfOrder : EventHistory :=
  (EventHistory.new.add_event ⟨⟨7⟩, 0, .TimerStarted "t" 10⟩).add_event
    ⟨⟨3⟩, 1, .TimerFired "t"⟩

/-- Concrete replay history for the C1 witness: activity `a1` was scheduled
and completed with result `"done"`. -/
def replayHistory : EventHistory :=
  (EventHistory.new.add_event
      ⟨⟨0⟩, 0, .ActivityTaskScheduled ⟨"a1"⟩ "SendEmail" .null⟩).add_event
    ⟨⟨1⟩, 1, .ActivityTaskCompleted ⟨"a1"⟩ (.str "done")⟩

/-- Concrete snapshots for the C6 witness, both for workflow `wf1`. -/
def snapA : StateSnapshot := ⟨"wf1", .str "a", 0⟩

/-- Second concrete snapshot for `wf1`, overwriting `snapA`. -/
def snapB : StateSnapshot := ⟨"wf1", .str "b", 1⟩

/-! ## Claims -/

/-- Claim C1: for every call of `WorkflowContext::execute_activity`, if the
corresponding `ActivityTaskScheduled` event for this call-site is not yet in
history, the call appends it (with the next EventId) and suspends; once an
`ActivityTaskCompleted`/`ActivityTaskFailed` event for that ActivityId is in
history (replay), the call returns the recorded result immediately without
suspending; while scheduled but not completed, it stays suspended without
changing history.  (Settled against the spec-modelled `execute_activity`:
the source body is `todo!()`.) -/
theorem C1_execute_activity_replay :
    (∀ (h : EventHistory) (aid : ActivityId) (ty : String) (inp : Json) (ts : Int),
      h.has_scheduled aid = false →
      execute_activity h aid ty inp ts
        = .suspended (h.add_event ⟨⟨h.len⟩, ts, .ActivityTaskScheduled aid ty inp⟩)) ∧
    (∀ (h : EventHistory) (aid : ActivityId) (ty : String) (inp : Json) (ts : Int) (r : Json),
      h.has_scheduled aid = true →
      h.find_activity_result aid = some (.ok r) →
      execute_activity h aid ty inp ts = .returned (.ok r)) ∧
    (∀ (h : EventHistory) (aid : ActivityId) (ty : String) (inp : Json) (ts : Int) (f : String),
      h.has_scheduled aid = true →
      h.find_activity_result aid = some (.error f) →
      execute_activity h aid ty inp ts = .returned (.error (.ActivityFailed f))) ∧
    (∀ (h : EventHistory) (aid : ActivityId) (ty : String) (inp : Json) (ts : Int),
      h.has_scheduled aid = true →
      h.find_activity_result aid = none →
      execute_activity h aid ty inp ts = .suspended h) := by
  refine ⟨?_, ?_, ?_, ?_⟩
  · intro h aid ty inp ts hns
    simp [execute_activity, hns]
  · intro h aid ty inp ts r hs hr
    simp [execute_activity, hs, hr]
  · intro h aid ty inp ts f hs hr
    simp [execute_activity, hs, hr]
  · intro h aid ty inp ts hs hr
    simp [execute_activity, hs, hr]

/-- Claim C1 witness: on the concrete replay history, `execute_activity`
returns the recorded result immediately. -/
theorem C1_execute_activity_replay_witness :
    execute_activity replayHistory ⟨"a1"⟩ "SendEmail" .null 2
      = .returned (.ok (.str "done")) :=
  C1_execute_activity_replay.2.1 replayHistory ⟨"a1"⟩ "SendEmail" Json.null 2
    (Json.str "done") rfl rfl

/-- Claim C2 counterexample: `EventHistory::add_event` does not assign the
next EventId.  Appending an event that carries EventId 5 to an empty history
(whose `len()` is 0) stores EventId 5, not 0 — and the Rust function returns
`()`, not an EventId. -/
theorem C2_counterexample_add_event_ignores_len :
    ¬ ((EventHistory.new.add_event eventWithId5).eventIds = [EventHistory.new.len]) := by
  decide

/-- Claim C2 (amended): `add_event` appends the caller-supplied event
verbatim at the end of the history — it neither assigns an EventId (the
stored `event_id` is whatever the caller put in the event) nor returns one
(the Rust function returns `()`). -/
theorem C2_add_event_appends_verbatim (h : EventHistory) (e : WorkflowEvent) :
    (h.add_event e).events = h.events ++ [e] := rfl

/-- Claim C3 counterexample: nothing in `EventHistory` enforces EventId
monotonicity; a history built by `add_event` with EventIds 7 then 3 has the
id sequence `[7, 3]`, which is not strictly increasing (nor does it start
at 0). -/
theorem C3_counterexample_ids_not_monotonic :
    historyOutOfOrder.eventIds = [7, 3]
      ∧ ¬ List.Chain' (fun a b => a < b) historyOutOfOrder.eventIds := by
  have hids : historyOutOfOrder.eventIds = [7, 3] := rfl
  refine ⟨hids, ?_⟩
  rw [hids]
  intro hch
  rcases List.chain'_cons.mp hch with ⟨hlt, _⟩
  omega

/-- Claim C3 (amended): `EventHistory` itself does not enforce the invariant;
it holds exactly for histories whose events are assigned EventIds by the
intended scheme (each event receives `history.len()` at append time, the
`EventId::zero`/`next` counter): such a history's id sequence is
`0, 1, …, n-1` — strictly increasing, gap-free, starting at 0, never
reused. -/
theorem C3_assigned_event_ids_are_range (l : List (Int × EventType)) :
    (EventHistory.build_assigned l).eventIds = List.range l.length := by
  rw [EventHistory.build_assigned, eventIds_foldl_add_assigned]
  simp [EventHistory.new, EventHistory.eventIds, EventHistory.len, List.range_eq_range']

/-- Claim C4: for every key and TTL, two sequential `put_idempotency_key`
calls on the in-memory adapter (starting from any state in which the key is
absent) return `Ok(true)` (newly inserted) then `Ok(false)` (already
present). -/
theorem C4_put_idempotency_key_true_then_false (a : InMemoryAdapter) (k : String)
    (ttl1 ttl2 : Nat) (t1 t2 : Int) (hfresh : mapContains a.keys k = false) :
    (a.put_idempotency_key k ttl1 t1).1 = .ok true ∧
    ((a.put_idempotency_key k ttl1 t1).2.put_idempotency_key k ttl2 t2).1 = .ok false := by
  constructor
  · simp [InMemoryAdapter.put_idempotency_key, hfresh]
  · simp [InMemoryAdapter.put_idempotency_key, hfresh, mapContains_insert_self]

/-- Claim C4 witness: on a fresh adapter, `put_idempotency_key "k" 60` twice
returns `Ok(true)` then `Ok(false)`. -/
theorem C4_put_idempotency_key_witness :
    (InMemoryAdapter.new.put_idempotency_key "k" 60 0).1 = .ok true ∧
    ((InMemoryAdapter.new.put_idempotency_key "k" 60 0).2.put_idempotency_key "k" 60 1).1
      = .ok false :=
  C4_put_idempotency_key_true_then_false InMemoryAdapter.new "k" 60 60 0 1 rfl

/-- Claim C5 counterexample: the in-memory adapter's `put_idempotency_key`
ignores its TTL argument (`_ttl_seconds`).  Storing `"k"` with TTL 60 at
time 0 and calling again at time 1000 — far past expiry — still returns
`Ok(false)`, where the claim requires `Ok(true)`. -/
theorem C5_counterexample_no_expiry :
    ((InMemoryAdapter.new.put_idempotency_key "k" 60 0).2.put_idempotency_key "k" 60 1000).1
        = .ok false
      ∧ ((0 : Int) + 60 < 1000) := by
  exact ⟨rfl, by decide⟩

/-- Claim C5 (amended): the in-memory adapter never expires idempotency
keys: once a key is stored, every subsequent `put_idempotency_key` call with
the same key — at any later time, TTL elapsed or not — returns `Ok(false)`
and leaves the adapter unchanged. -/
theorem C5_stored_key_reports_present_forever (a : InMemoryAdapter) (k : String)
    (ttl : Nat) (now : Int) (hstored : mapContains a.keys k = true) :
    a.put_idempotency_key k ttl now = (.ok false, a) := by
  simp [InMemoryAdapter.put_idempotency_key, hstored]

/-- Claim C5 witness: a key stored at time 0 with TTL 60 still reports
already-present at time 1000. -/
theorem C5_stored_key_witness :
    (InMemoryAdapter.new.put_idempotency_key "k" 60 0).2.put_idempotency_key "k" 60 1000
      = (.ok false, (InMemoryAdapter.new.put_idempotency_key "k" 60 0).2) :=
  C5_stored_key_reports_present_forever _ "k" 60 1000 rfl

/-- Claim C6: after `save_state(s)`, `load_state(s.workflow_id)` returns
`Ok(Some(s))`; a later `save_state` for the same workflow_id overwrites the
earlier snapshot; and `load_state` of a workflow_id never saved returns
`Ok(None)`. -/
theorem C6_save_load_contract :
    (∀ (a : InMemoryAdapter) (s : StateSnapshot),
      (a.save_state s).2.load_state s.workflow_id = .ok (some s)) ∧
    (∀ (a : InMemoryAdapter) (s1 s2 : StateSnapshot),
      s1.workflow_id = s2.workflow_id →
      ((a.save_state s1).2.save_state s2).2.load_state s1.workflow_id = .ok (some s2)) ∧
    (∀ (snaps : List StateSnapshot) (wid : String),
      wid ∉ snaps.map StateSnapshot.workflow_id →
      (InMemoryAdapter.build_saves snaps).load_state wid = .ok none) := by
  refine ⟨?_, ?_, ?_⟩
  · intro a s
    show Except.ok (mapLookup (mapInsert a.states s.workflow_id s) s.workflow_id) = _
    rw [mapLookup_insert_self]
  · intro a s1 s2 heq
    show Except.ok
        (mapLookup (mapInsert (mapInsert a.states s1.workflow_id s1) s2.workflow_id s2)
          s1.workflow_id) = _
    rw [heq, mapLookup_insert_self]
  · intro snaps wid hnot
    show Except.ok (mapLookup (InMemoryAdapter.build_saves snaps).states wid) = _
    rw [InMemoryAdapter.build_saves, load_state_foldl_saves snaps InMemoryAdapter.new wid hnot rfl]

/-- Claim C6 witness: saving `snapA` then `snapB` (same workflow `wf1`)
makes `load_state "wf1"` return `snapB`; loading a never-saved id returns
`None`. -/
theorem C6_save_load_witness :
    (InMemoryAdapter.new.save_state snapA).2.load_state "wf1" = .ok (some snapA) ∧
    ((InMemoryAdapter.new.save_state snapA).2.save_state snapB).2.load_state "wf1"
      = .ok (some snapB) ∧
    (InMemoryAdapter.build_saves [snapA]).load_state "other" = .ok none :=
  ⟨C6_save_load_contract.1 InMemoryAdapter.new snapA,
   C6_save_load_contract.2.1 InMemoryAdapter.new snapA snapB rfl,
   C6_save_load_contract.2.2 [snapA] "other" (by decide)⟩

/-- Claim C7: with the source's default policy (1 s initial interval,
coefficient 2.0, 100 s cap, 3 attempts), the spec's delay formula gives 2 s
before attempt 2 and 4 s before attempt 3; and with `max_attempts = 1` every
`TemporaryFailure` is terminal — no retry is scheduled.  (Delay formula and
retry decision are spec-modelled: no retry engine exists in the source.) -/
theorem C7_retry_backoff :
    (RetryPolicy.defaultPolicy.retry_delay 2 = 2) ∧
    (RetryPolicy.defaultPolicy.retry_delay 3 = 4) ∧
    (∀ (attempt : Nat) (msg : String), 1 ≤ attempt →
      ({ RetryPolicy.defaultPolicy with max_attempts := 1 }).should_retry attempt
          (.TemporaryFailure msg) = false) := by
  refine ⟨?_, ?_, ?_⟩
  · rw [RetryPolicy.retry_delay]
    norm_num [RetryPolicy.defaultPolicy, min_def]
  · rw [RetryPolicy.retry_delay]
    norm_num [RetryPolicy.defaultPolicy, min_def]
  · intro attempt msg h1
    have hlt : ¬ attempt < 1 := Nat.not_lt.mpr h1
    simp [RetryPolicy.should_retry, hlt]

/-- Claim C7 witness: with `max_attempts = 1`, the very first
`TemporaryFailure` is terminal. -/
theorem C7_retry_backoff_witness :
    ({ RetryPolicy.defaultPolicy with max_attempts := 1 }).should_retry 1
        (.TemporaryFailure "boom") = false :=
  C7_retry_backoff.2.2 1 "boom" (by decide)

/-- Claim C8: the per-execution status machine moves only from `Running`;
`Running` is the only non-terminal status; a terminal status is unchanged by
any further event append, including whole sequences of appends.  (Settled
against the spec-modelled `apply_event`: the dispatch loop in `worker.rs` is
an empty stub.) -/
theorem C8_status_machine :
    (∀ (s : ExecutionStatus) (e : EventType), s.apply_event e ≠ s → s = .Running) ∧
    (∀ s : ExecutionStatus, s.is_terminal = false ↔ s = .Running) ∧
    (∀ (s : ExecutionStatus) (e : EventType), s.is_terminal = true → s.apply_event e = s) ∧
    (∀ (s : ExecutionStatus) (es : List EventType), s.is_terminal = true →
      es.foldl ExecutionStatus.apply_event s = s) := by
  have hterm : ∀ (s : ExecutionStatus) (e : EventType),
      s.is_terminal = true → s.apply_event e = s := by
    intro s e hs
    simp [ExecutionStatus.apply_event, hs]
  have hnotrun : ∀ s : ExecutionStatus, s ≠ .Running → s.is_terminal = true := by
    intro s hs
    cases s
    · exact absurd rfl hs
    all_goals rfl
  refine ⟨?_, ?_, hterm, ?_⟩
  · intro s e hne
    by_contra hsr
    exact hne (hterm s e (hnotrun s hsr))
  · intro s
    cases s <;> simp [ExecutionStatus.is_terminal]
  · intro s es hs
    induction es with
    | nil => rfl
    | cons e es ih =>
        rw [List.foldl_cons, hterm s e hs]
        exact ih

/-- Claim C8 witness: a `Completed` execution stays `Completed` under a
further event append, and a `Cancelled` one under a whole sequence. -/
theorem C8_status_machine_witness :
    ExecutionStatus.Completed.apply_event (.TimerFired "t") = ExecutionStatus.Completed ∧
    [EventType.WorkflowExecutionFailed "x"].foldl ExecutionStatus.apply_event
        ExecutionStatus.Cancelled = ExecutionStatus.Cancelled :=
  ⟨C8_status_machine.2.2.1 ExecutionStatus.Completed (EventType.TimerFired "t") rfl,
   C8_status_machine.2.2.2 ExecutionStatus.Cancelled [EventType.WorkflowExecutionFailed "x"] rfl⟩

/-- Claim C9: `add_event` leaves all previously stored events unchanged, in
order, with the new event at the end; a history built by n `add_event` calls
has `len() = n` and `events()` returns exactly the added events in append
order; `is_empty()` holds exactly when `len()` is 0. -/
theorem C9_event_history_invariants :
    (∀ (h : EventHistory) (e : WorkflowEvent), (h.add_event e).events = h.events ++ [e]) ∧
    (∀ es : List WorkflowEvent,
      (EventHistory.build es).events = es ∧ (EventHistory.build es).len = es.length) ∧
    (∀ h : EventHistory, h.is_empty = (h.len == 0)) := by
  refine ⟨fun h e => rfl, ?_, ?_⟩
  · intro es
    have hev : (EventHistory.build es).events = es := by
      rw [EventHistory.build, foldl_add_event_events]
      rfl
    refine ⟨hev, ?_⟩
    show (EventHistory.build es).events.length = es.length
    rw [hev]
  · intro h
    cases h with
    | mk es => cases es <;> rfl

/-- Claim C10: the bundled `InMemoryStorage` backend's
`save_workflow_execution` returns `Ok(())` for every execution and history
but stores nothing (the storage value is unchanged — it has no state), and
`load_workflow_execution` returns `Err(StorageError::NotFound)` for every
workflow_id, including immediately after a save of that same id. -/
theorem C10_in_memory_storage_placeholder :
    ∀ (s : InMemoryStorage) (ex : WorkflowExecution) (h : EventHistory) (wid : WorkflowId),
      (s.save_workflow_execution ex h).1 = .ok () ∧
      (s.save_workflow_execution ex h).2 = s ∧
      (s.save_workflow_execution ex h).2.load_workflow_execution ex.workflow_id
        = .error .NotFound ∧
      s.load_workflow_execution wid = .error .NotFound :=
  fun _ _ _ _ => ⟨rfl, rfl, rfl, rfl⟩

end WorkflowRust
